import Mathlib

/-!
Shallow embedding of `src/contracts/DAO_Debate_Guard.sol` (contract
`DaoDebateGuardFHE`).

Addresses, `uint256` values and `bytes32` hashes are modelled as `Nat`
(no arithmetic in the contract can overflow a `uint256` on the inputs
considered; Solidity 0.8 would revert on overflow rather than wrap).
`euint32` is an opaque FHE ciphertext handle, which at the EVM level is
a `bytes32`, hence also `Nat`; `FHE.toBytes32` is the identity on it.
The opaque FHE/oracle primitives (`FHE.asEuint32(0)`, `fheAdd`,
`keccak256(abi.encode(cts, address(this)))`, `FHE.checkSignatures`,
`FHE.isInitialized`, `address(this)`) are parameters gathered in an
environment record `FheEnv`: the contract only composes them.

Every external function is a pure function from the environment, the
current storage state, `msg.sender` (and `block.timestamp` where read)
to `Except Error (state, emitted events)`; returning `.error e`
models `revert e`, which undoes all storage writes of the call.
-/

namespace DaoDebateGuard

/-- The `error` declarations of the contract, plus `BatchNotClosed`,
which the source reverts with at line 176 of
`requestBatchDecryption` although it never declares it (the declared
list stops at `InvalidParameter`). -/
inductive Error where
  | NotOwner
  | NotProvider
  | Paused
  | CooldownActive
  | BatchNotOpen
  | BatchClosed
  | InvalidBatchId
  | ReplayDetected
  | StateMismatch
  | InvalidProof
  | NotInitialized
  | InvalidParameter
  | BatchNotClosed
  deriving DecidableEq, Repr

/-- The events the contract can emit. -/
inductive Event where
  | OwnershipTransferred (oldOwner newOwner : Nat)
  | ProviderAdded (provider : Nat)
  | ProviderRemoved (provider : Nat)
  | Paused (account : Nat)
  | Unpaused (account : Nat)
  | CooldownSecondsChanged (oldCooldown newCooldown : Nat)
  | BatchOpened (batchId : Nat)
  | BatchClosed (batchId : Nat)
  | Submission (batchId provider : Nat)
  | DecryptionRequested (requestId batchId : Nat)
  | DecryptionCompleted (requestId batchId sentimentScore keywordCount
      pollOption1Count pollOption2Count : Nat)
  deriving DecidableEq, Repr

/-- `struct DecryptionContext { uint256 batchId; bytes32 stateHash; bool processed; }` -/
structure DecryptionContext where
  batchId : Nat
  stateHash : Nat
  processed : Bool
  deriving DecidableEq, Repr

/-- The all-zero struct a Solidity mapping returns for a key that was
never written. -/
def defaultContext : DecryptionContext :=
  { batchId := 0, stateHash := 0, processed := false }

/-- The contract's storage variables. Solidity mappings are total
functions with the zero default. The four unused per-batch mappings
(`encryptedSentimentScores` …) are never read or written by any
function and are omitted. -/
structure ContractState where
  owner : Nat
  providers : Nat → Bool
  paused : Bool
  cooldownSeconds : Nat
  lastSubmissionTime : Nat → Nat
  lastDecryptionRequestTime : Nat → Nat
  currentBatchId : Nat
  batchOpen : Bool
  decryptionContexts : Nat → DecryptionContext
  accSentimentScore : Nat
  accKeywordCount : Nat
  accPollOption1Count : Nat
  accPollOption2Count : Nat
  submissionsInCurrentBatch : Nat

/-- The opaque primitives the contract composes: the FHE library, the
keccak hash, and the contract's own address. -/
structure FheEnv where
  thisAddr : Nat
  /-- handle returned by `FHE.asEuint32(0)` (trivial encryption of 0). -/
  zeroHandle : Nat
  /-- `FHE.fheAdd` on two handles, returning the handle of the sum. -/
  fheAdd : Nat → Nat → Nat
  /-- `keccak256(abi.encode(cts, address(this)))` for a handle list `cts`. -/
  keccak : List Nat → Nat → Nat
  /-- `FHE.checkSignatures(requestId, cleartexts, proof)`. -/
  checkSignatures : Nat → List Nat → List Nat → Bool
  /-- `FHE.isInitialized()`. -/
  isInitialized : Bool

/-- `constructor()`: run by `msg.sender`; returns initial storage and
the emitted events. All storage not assigned starts at its zero
default. -/
def constructState (sender : Nat) : ContractState × List Event :=
  ({ owner := sender
     providers := fun a => a == sender
     paused := false
     cooldownSeconds := 60
     lastSubmissionTime := fun _ => 0
     lastDecryptionRequestTime := fun _ => 0
     currentBatchId := 0
     batchOpen := false
     decryptionContexts := fun _ => defaultContext
     accSentimentScore := 0
     accKeywordCount := 0
     accPollOption1Count := 0
     accPollOption2Count := 0
     submissionsInCurrentBatch := 0 },
   [Event.ProviderAdded sender])

/-- `transferOwnership(address newOwner) external onlyOwner`. -/
def transferOwnership (s : ContractState) (sender newOwner : Nat) :
    Except Error (ContractState × List Event) :=
  if sender ≠ s.owner then .error .NotOwner
  else
    .ok ({ s with owner := newOwner },
         [Event.OwnershipTransferred s.owner newOwner])

/-- `addProvider(address provider) external onlyOwner`. -/
def addProvider (s : ContractState) (sender provider : Nat) :
    Except Error (ContractState × List Event) :=
  if sender ≠ s.owner then .error .NotOwner
  else
    .ok ({ s with providers := fun a => if a = provider then true else s.providers a },
         [Event.ProviderAdded provider])

/-- `removeProvider(address provider) external onlyOwner`. -/
def removeProvider (s : ContractState) (sender provider : Nat) :
    Except Error (ContractState × List Event) :=
  if sender ≠ s.owner then .error .NotOwner
  else
    .ok ({ s with providers := fun a => if a = provider then false else s.providers a },
         [Event.ProviderRemoved provider])

/-- `setPaused(bool _paused) external onlyOwner`. -/
def setPaused (s : ContractState) (sender : Nat) (b : Bool) :
    Except Error (ContractState × List Event) :=
  if sender ≠ s.owner then .error .NotOwner
  else
    .ok ({ s with paused := b },
         [if b then Event.Paused sender else Event.Unpaused sender])

/-- `setCooldownSeconds(uint256 _cooldownSeconds) external onlyOwner`. -/
def setCooldownSeconds (s : ContractState) (sender newCooldown : Nat) :
    Except Error (ContractState × List Event) :=
  if sender ≠ s.owner then .error .NotOwner
  else if newCooldown = 0 then .error .InvalidParameter
  else
    .ok ({ s with cooldownSeconds := newCooldown },
         [Event.CooldownSecondsChanged s.cooldownSeconds newCooldown])

/-- `openBatch() external onlyOwner whenNotPaused`. While a batch is
open it reverts `InvalidBatchId` (the source's comment: "Or a more
specific error"). Otherwise it increments the batch id, opens the
batch, zeroes the submission counter and resets the four accumulators
to fresh trivial encryptions of 0. -/
def openBatch (env : FheEnv) (s : ContractState) (sender : Nat) :
    Except Error (ContractState × List Event) :=
  if sender ≠ s.owner then .error .NotOwner
  else if s.paused then .error .Paused
  else if s.batchOpen then .error .InvalidBatchId
  else
    .ok ({ s with
            currentBatchId := s.currentBatchId + 1
            batchOpen := true
            submissionsInCurrentBatch := 0
            accSentimentScore := env.zeroHandle
            accKeywordCount := env.zeroHandle
            accPollOption1Count := env.zeroHandle
            accPollOption2Count := env.zeroHandle },
         [Event.BatchOpened (s.currentBatchId + 1)])

/-- `closeBatch() external onlyOwner whenNotPaused`. -/
def closeBatch (s : ContractState) (sender : Nat) :
    Except Error (ContractState × List Event) :=
  if sender ≠ s.owner then .error .NotOwner
  else if s.paused then .error .Paused
  else if !s.batchOpen then .error .BatchNotOpen
  else
    .ok ({ s with batchOpen := false }, [Event.BatchClosed s.currentBatchId])

/-- `submitEncryptedData(euint32,euint32,euint32,euint32) external
onlyProvider whenNotPaused`. In the source the cooldown timestamp is
written before `_requireInitialized()` runs, but a revert there undoes
the write, so checking first is observationally the same. -/
def submitEncryptedData (env : FheEnv) (s : ContractState) (sender now : Nat)
    (sentimentScore keywordCount pollOption1 pollOption2 : Nat) :
    Except Error (ContractState × List Event) :=
  if !s.providers sender then .error .NotProvider
  else if s.paused then .error .Paused
  else if !s.batchOpen then .error .BatchNotOpen
  else if now < s.lastSubmissionTime sender + s.cooldownSeconds then
    .error .CooldownActive
  else if !env.isInitialized then .error .NotInitialized
  else
    .ok ({ s with
            lastSubmissionTime := fun a => if a = sender then now else s.lastSubmissionTime a
            accSentimentScore := env.fheAdd s.accSentimentScore sentimentScore
            accKeywordCount := env.fheAdd s.accKeywordCount keywordCount
            accPollOption1Count := env.fheAdd s.accPollOption1Count pollOption1
            accPollOption2Count := env.fheAdd s.accPollOption2Count pollOption2
            submissionsInCurrentBatch := s.submissionsInCurrentBatch + 1 },
         [Event.Submission s.currentBatchId sender])

/-- The ordered snapshot `[accSentimentScore, accKeywordCount,
accPollOption1Count, accPollOption2Count]` built identically in
`requestBatchDecryption` and `myCallback` (after `FHE.toBytes32`,
which is the identity on the handle). -/
def snapshotCts (s : ContractState) : List Nat :=
  [s.accSentimentScore, s.accKeywordCount, s.accPollOption1Count,
   s.accPollOption2Count]

/-- `requestBatchDecryption() external onlyOwner whenNotPaused`.
`requestId` is the fresh identifier returned by the external
`FHE.requestDecryption` oracle primitive and is passed in as an
argument. -/
def requestBatchDecryption (env : FheEnv) (s : ContractState)
    (sender now requestId : Nat) :
    Except Error (ContractState × List Event) :=
  if sender ≠ s.owner then .error .NotOwner
  else if s.paused then .error .Paused
  else if s.batchOpen then .error .BatchNotClosed
  else if s.submissionsInCurrentBatch = 0 then .error .InvalidBatchId
  else if now < s.lastDecryptionRequestTime sender + s.cooldownSeconds then
    .error .CooldownActive
  else
    let stateHash := env.keccak (snapshotCts s) env.thisAddr
    .ok ({ s with
            lastDecryptionRequestTime := fun a =>
              if a = sender then now else s.lastDecryptionRequestTime a
            decryptionContexts := fun q =>
              if q = requestId then
                { batchId := s.currentBatchId, stateHash := stateHash,
                  processed := false }
              else s.decryptionContexts q },
         [Event.DecryptionRequested requestId s.currentBatchId])

/-- `abi.decode(cleartexts[off : off+32], (uint256))`: big-endian
interpretation of a 32-byte slice of the cleartext bytes. -/
def decodeWord (bs : List Nat) (off : Nat) : Nat :=
  ((bs.drop off).take 32).foldl (fun acc b => acc * 256 + b % 256) 0

/-- `myCallback(uint256 requestId, bytes cleartexts, bytes proof)
public` — no modifier, so any `sender` may call it; `sender` is taken
as a parameter to record that fact and is read nowhere. The replay
guard runs first; then the commitment is recomputed from the CURRENT
global accumulators (there is no per-batch handle storage); then the
oracle signature check; then the four words are decoded and the
context is marked processed. -/
def myCallback (env : FheEnv) (s : ContractState) (sender requestId : Nat)
    (cleartexts proof : List Nat) :
    Except Error (ContractState × List Event) :=
  if (s.decryptionContexts requestId).processed then .error .ReplayDetected
  else
    let currentHash := env.keccak (snapshotCts s) env.thisAddr
    if currentHash ≠ (s.decryptionContexts requestId).stateHash then
      .error .StateMismatch
    else if !env.checkSignatures requestId cleartexts proof then
      .error .InvalidProof
    else
      let ctx := s.decryptionContexts requestId
      .ok ({ s with
              decryptionContexts := fun q =>
                if q = requestId then { ctx with processed := true }
                else s.decryptionContexts q },
           [Event.DecryptionCompleted requestId ctx.batchId
              (decodeWord cleartexts 0) (decodeWord cleartexts 32)
              (decodeWord cleartexts 64) (decodeWord cleartexts 96)])

/-- One external call to the contract, with its `msg.sender` and, where
the function reads them, `block.timestamp` and the oracle-issued
request id. -/
inductive Op where
  | transferOwnership (sender newOwner : Nat)
  | addProvider (sender provider : Nat)
  | removeProvider (sender provider : Nat)
  | setPaused (sender : Nat) (b : Bool)
  | setCooldownSeconds (sender newCooldown : Nat)
  | openBatch (sender : Nat)
  | closeBatch (sender : Nat)
  | submitEncryptedData (sender now a b c d : Nat)
  | requestBatchDecryption (sender now requestId : Nat)
  | myCallback (sender requestId : Nat) (cleartexts proof : List Nat)

/-- Dispatch one external call. -/
def runOp (env : FheEnv) (s : ContractState) : Op → Except Error (ContractState × List Event)
  | .transferOwnership x n => transferOwnership s x n
  | .addProvider x p => addProvider s x p
  | .removeProvider x p => removeProvider s x p
  | .setPaused x b => setPaused s x b
  | .setCooldownSeconds x c => setCooldownSeconds s x c
  | .openBatch x => openBatch env s x
  | .closeBatch x => closeBatch s x
  | .submitEncryptedData x now a b c d => submitEncryptedData env s x now a b c d
  | .requestBatchDecryption x now q => requestBatchDecryption env s x now q
  | .myCallback x q cl pf => myCallback env s x q cl pf

/-- The storage after one external call: a revert leaves storage
unchanged. -/
def applyOp (env : FheEnv) (s : ContractState) (op : Op) : ContractState :=
  match runOp env s op with
  | .ok (s', _) => s'
  | .error _ => s

/-- The storage after a sequence of external calls. -/
def applyOps (env : FheEnv) (s : ContractState) : List Op → ContractState
  | [] => s
  | op :: ops => applyOps env (applyOp env s op) ops

/-- The request id a call would create a fresh `DecryptionContext`
under, if any: only `requestBatchDecryption` stores a new context. -/
def reqIdOf : Op → Option Nat
  | .requestBatchDecryption _ _ q => some q
  | _ => none

/-! Concrete instantiations of the opaque primitives, used for
witnesses and concrete scenarios. -/

/-- A concrete environment whose signature check always passes. -/
def envA : FheEnv :=
  { thisAddr := 99
    zeroHandle := 7
    fheAdd := fun a b => a + b + 1000
    keccak := fun cts addr => cts.foldl (fun acc h => acc * 1000003 + h + 1) addr
    checkSignatures := fun _ _ _ => true
    isInitialized := true }

/-- A concrete environment whose signature check passes exactly for
nonempty cleartexts. -/
def envB : FheEnv :=
  { thisAddr := 99
    zeroHandle := 7
    fheAdd := fun a b => a + b + 1000
    keccak := fun cts addr => cts.foldl (fun acc h => acc * 1000003 + h + 1) addr
    checkSignatures := fun _ cl _ => !cl.isEmpty
    isInitialized := true }

/-- Freshly constructed storage with an open batch. -/
def stOpen : ContractState :=
  { (constructState 1).1 with currentBatchId := 1, batchOpen := true }

/-- Freshly constructed storage with the pause flag set. -/
def stPaused : ContractState :=
  { (constructState 1).1 with paused := true }

/-- Freshly constructed storage with two pending decryption contexts:
id 5 whose stored hash matches the current accumulators, and id 6
whose stored hash (0) does not. -/
def stC4 : ContractState :=
  { (constructState 1).1 with
      decryptionContexts := fun q =>
        if q = 5 then
          { batchId := 1
            stateHash := envB.keccak (snapshotCts (constructState 1).1) envB.thisAddr
            processed := false }
        else if q = 6 then
          { batchId := 1, stateHash := 0, processed := false }
        else defaultContext }

/-! ## Claims -/

/-- C9: `myCallback` applies no caller-based access control: with
identical storage, environment, requestId, cleartexts and proof, two
invocations from any two senders produce the same outcome (the same
error, or success with the same state change and events). -/
theorem callback_caller_independence (env : FheEnv) (s : ContractState)
    (requestId : Nat) (cleartexts proof : List Nat) (a b : Nat) :
    myCallback env s a requestId cleartexts proof =
      myCallback env s b requestId cleartexts proof := rfl

/-- C10: `transferOwnership` by the current owner succeeds and changes
only the `owner` field: the resulting storage is the old storage with
`owner := newOwner`, the providers mapping is untouched, so any
address registered as a provider (in particular the previous owner,
registered at construction) stays one, and the new owner gains no
provider status from the transfer. -/
theorem transfer_ownership_owner_only_frame (s : ContractState)
    (sender newOwner : Nat) (h : sender = s.owner) :
    ∃ s' : ContractState,
      transferOwnership s sender newOwner =
        .ok (s', [Event.OwnershipTransferred s.owner newOwner]) ∧
      s' = { s with owner := newOwner } ∧
      s'.providers = s.providers ∧
      (s.providers s.owner = true → s'.providers s.owner = true) ∧
      (s.providers newOwner = false → s'.providers newOwner = false) := by
  refine ⟨{ s with owner := newOwner }, ?_, rfl, rfl, fun hp => hp, fun hp => hp⟩
  simp [transferOwnership, h]

/-- Witness for C10: after construction by address 1, transferring
ownership to address 2 keeps 1 a provider and does not make 2 one. -/
theorem transfer_ownership_owner_only_frame_witness :
    ∃ s' : ContractState,
      transferOwnership (constructState 1).1 1 2 =
        .ok (s', [Event.OwnershipTransferred (constructState 1).1.owner 2]) ∧
      s' = { (constructState 1).1 with owner := 2 } ∧
      s'.providers = (constructState 1).1.providers ∧
      ((constructState 1).1.providers (constructState 1).1.owner = true →
        s'.providers (constructState 1).1.owner = true) ∧
      ((constructState 1).1.providers 2 = false → s'.providers 2 = false) :=
  transfer_ownership_owner_only_frame (constructState 1).1 1 2 rfl

/-- Counterexample for C8 as stated: with the batch already open, a
call of `openBatch` by the owner while not paused reverts with
`InvalidBatchId` — the contract's generic batch-id error (its comment:
"Or a more specific error") — and declares no `BatchAlreadyOpen`
error at all, so no call can fail with one. -/
theorem open_batch_already_open_error_concrete :
    stOpen.owner = 1 ∧ stOpen.paused = false ∧ stOpen.batchOpen = true ∧
    openBatch envA stOpen 1 = .error .InvalidBatchId :=
  ⟨rfl, rfl, rfl, rfl⟩

/-- C8 (amended): with the batch already open, `openBatch` called by
the owner while not paused reverts with `InvalidBatchId` (the contract
declares no `BatchAlreadyOpen`); with no batch open, `closeBatch` by
the owner while not paused reverts `BatchNotOpen`, and
`submitEncryptedData` by a registered provider while not paused
reverts `BatchNotOpen`. A revert leaves storage unchanged. -/
theorem batch_lifecycle_gate_errors (env : FheEnv) (s : ContractState)
    (sender : Nat) :
    (sender = s.owner → s.paused = false → s.batchOpen = true →
      openBatch env s sender = .error .InvalidBatchId) ∧
    (sender = s.owner → s.paused = false → s.batchOpen = false →
      closeBatch s sender = .error .BatchNotOpen) ∧
    (∀ now a b c d, s.providers sender = true → s.paused = false →
      s.batchOpen = false →
      submitEncryptedData env s sender now a b c d = .error .BatchNotOpen) := by
  refine ⟨fun ho hp hb => ?_, fun ho hp hb => ?_, fun now a b c d hpr hp hb => ?_⟩
  · simp [openBatch, ho, hp, hb]
  · simp [closeBatch, ho, hp, hb]
  · simp [submitEncryptedData, hpr, hp, hb]

/-- Witness for C8: concrete open state for the `openBatch` part and
the freshly constructed closed state for the other two. -/
theorem batch_lifecycle_gate_errors_witness :
    openBatch envA stOpen 1 = .error .InvalidBatchId ∧
    closeBatch (constructState 1).1 1 = .error .BatchNotOpen ∧
    submitEncryptedData envA (constructState 1).1 1 100 1 2 3 4 =
      .error .BatchNotOpen :=
  ⟨(batch_lifecycle_gate_errors envA stOpen 1).1 rfl rfl rfl,
   (batch_lifecycle_gate_errors envA (constructState 1).1 1).2.1 rfl rfl rfl,
   (batch_lifecycle_gate_errors envA (constructState 1).1 1).2.2 100 1 2 3 4
     rfl rfl rfl⟩

/-- Counterexample for C7 as stated: the gates exist in the claimed
order, but the errors raised are `BatchNotClosed` (an identifier the
contract reverts with at the open-batch gate without declaring it)
and `InvalidBatchId` for the empty-batch gate — the contract declares
neither `BatchStillOpen` nor `EmptyBatch`, so no call fails with
those. -/
theorem request_decryption_error_names_concrete :
    stOpen.batchOpen = true ∧
    requestBatchDecryption envA stOpen 1 300 7 = .error .BatchNotClosed ∧
    (constructState 1).1.batchOpen = false ∧
    (constructState 1).1.submissionsInCurrentBatch = 0 ∧
    requestBatchDecryption envA (constructState 1).1 1 300 7 =
      .error .InvalidBatchId :=
  ⟨rfl, rfl, rfl, rfl, rfl⟩

/-- C7 (amended): a decryption request by the owner while not paused
reverts `BatchNotClosed` (not a declared error; the claimed name
`BatchStillOpen` does not exist) whenever the batch is open, reverts
`InvalidBatchId` (not `EmptyBatch`, which does not exist) whenever
the batch is closed with zero submissions, and passes these two gates
exactly for a closed batch with at least one submission — proceeding
to the cooldown check and otherwise succeeding. -/
theorem request_decryption_gates (env : FheEnv) (s : ContractState)
    (sender now requestId : Nat) (ho : sender = s.owner)
    (hp : s.paused = false) :
    (s.batchOpen = true →
      requestBatchDecryption env s sender now requestId =
        .error .BatchNotClosed) ∧
    (s.batchOpen = false → s.submissionsInCurrentBatch = 0 →
      requestBatchDecryption env s sender now requestId =
        .error .InvalidBatchId) ∧
    (s.batchOpen = false → 0 < s.submissionsInCurrentBatch →
      requestBatchDecryption env s sender now requestId =
        .error .CooldownActive ∨
      ∃ s' evs, requestBatchDecryption env s sender now requestId =
        .ok (s', evs)) := by
  subst ho
  refine ⟨fun hb => ?_, fun hb hc => ?_, fun hb hc => ?_⟩
  · simp [requestBatchDecryption, hp, hb]
  · simp [requestBatchDecryption, hp, hb, hc]
  · by_cases hcd : now < s.lastDecryptionRequestTime s.owner + s.cooldownSeconds
    · left
      simp [requestBatchDecryption, hp, hb, Nat.pos_iff_ne_zero.mp hc, hcd]
    · right
      cases hres : requestBatchDecryption env s s.owner now requestId with
      | error e =>
          simp [requestBatchDecryption, hp, hb, Nat.pos_iff_ne_zero.mp hc,
            hcd] at hres
      | ok r => exact ⟨r.1, r.2, congrArg Except.ok Prod.mk.eta.symm⟩

/-- Witness for C7: the open state hits the first gate, the fresh
closed empty state hits the second, and a closed state with one
submission passes both gates (here succeeding outright). -/
theorem request_decryption_gates_witness :
    (requestBatchDecryption envA stOpen 1 300 7 = .error .BatchNotClosed) ∧
    (requestBatchDecryption envA (constructState 1).1 1 300 7 =
      .error .InvalidBatchId) ∧
    (requestBatchDecryption envA
        { stOpen with batchOpen := false, submissionsInCurrentBatch := 1 }
        1 300 7 = .error .CooldownActive ∨
      ∃ s' evs, requestBatchDecryption envA
        { stOpen with batchOpen := false, submissionsInCurrentBatch := 1 }
        1 300 7 = .ok (s', evs)) :=
  ⟨(request_decryption_gates envA stOpen 1 300 7 rfl rfl).1 rfl,
   (request_decryption_gates envA (constructState 1).1 1 300 7 rfl rfl).2.1
     rfl rfl,
   (request_decryption_gates envA
       { stOpen with batchOpen := false, submissionsInCurrentBatch := 1 }
       1 300 7 rfl rfl).2.2 rfl Nat.one_pos⟩

/-- `myCallback` neither reads nor writes the pause flag: its outcome
on storage with the flag set to `b` is its outcome on the original
storage with `b` merely carried through. -/
theorem myCallback_paused_map (env : FheEnv) (s : ContractState) (b : Bool)
    (x requestId : Nat) (cleartexts proof : List Nat) :
    myCallback env { s with paused := b } x requestId cleartexts proof =
      Except.map (fun r => ({ r.1 with paused := b }, r.2))
        (myCallback env s x requestId cleartexts proof) := by
  unfold myCallback snapshotCts
  dsimp only
  split_ifs <;> rfl

/-- Counterexample for C5 as stated: with the pause flag set, a call
of `openBatch` by a non-owner reverts with `NotOwner`, not with the
paused error — the `onlyOwner` modifier runs before `whenNotPaused`. -/
theorem paused_nonowner_not_paused_error :
    stPaused.paused = true ∧
    openBatch envA stPaused 5 = .error .NotOwner ∧
    Error.NotOwner ≠ Error.Paused := ⟨rfl, rfl, by decide⟩

/-- C5 (amended): with the pause flag set, `openBatch`, `closeBatch`
and `requestBatchDecryption` called by the owner, and
`submitEncryptedData` called by a registered provider, all revert with
`Paused` (a caller failing the preceding authorization modifier
reverts `NotOwner`/`NotProvider` instead); and the pause flag has no
effect on `myCallback`, whose outcome on storage with the flag set to
any value is the outcome on the original storage with the flag merely
carried through. -/
theorem pause_gating_and_callback_independence (env : FheEnv)
    (s : ContractState) (sender : Nat) (h : s.paused = true) :
    (sender = s.owner →
      openBatch env s sender = .error .Paused ∧
      closeBatch s sender = .error .Paused ∧
      ∀ now requestId, requestBatchDecryption env s sender now requestId =
        .error .Paused) ∧
    (s.providers sender = true → ∀ now a b c d,
      submitEncryptedData env s sender now a b c d = .error .Paused) ∧
    (∀ b x requestId cleartexts proof,
      myCallback env { s with paused := b } x requestId cleartexts proof =
        Except.map (fun r => ({ r.1 with paused := b }, r.2))
          (myCallback env s x requestId cleartexts proof)) := by
  refine ⟨fun ho => ⟨?_, ?_, fun now requestId => ?_⟩,
    fun hpr now a b c d => ?_,
    fun b x requestId cleartexts proof =>
      myCallback_paused_map env s b x requestId cleartexts proof⟩
  · simp [openBatch, ho, h]
  · simp [closeBatch, ho, h]
  · simp [requestBatchDecryption, ho, h]
  · simp [submitEncryptedData, hpr, h]

/-- Witness for C5: in the concrete paused state all four gated
operations revert `Paused` for the authorized caller, and `myCallback`
behaves identically with the flag cleared. -/
theorem pause_gating_witness :
    openBatch envA stPaused 1 = .error .Paused ∧
    closeBatch stPaused 1 = .error .Paused ∧
    requestBatchDecryption envA stPaused 1 100 5 = .error .Paused ∧
    submitEncryptedData envA stPaused 1 100 1 2 3 4 = .error .Paused ∧
    myCallback envA { stPaused with paused := false } 9 5 [] [] =
      Except.map (fun r => ({ r.1 with paused := false }, r.2))
        (myCallback envA stPaused 9 5 [] []) := by
  obtain ⟨h1, h2, h3⟩ :=
    pause_gating_and_callback_independence envA stPaused 1 rfl
  exact ⟨(h1 rfl).1, (h1 rfl).2.1, (h1 rfl).2.2 100 5, h2 rfl 100 1 2 3 4,
    h3 false 9 5 [] []⟩

/-- The exact storage and event a successful `submitEncryptedData`
produces. -/
theorem submit_ok (env : FheEnv) (s : ContractState)
    (sender now a b c d : Nat) (hprov : s.providers sender = true)
    (hp : s.paused = false) (hopen : s.batchOpen = true)
    (hinit : env.isInitialized = true)
    (hcd : s.lastSubmissionTime sender + s.cooldownSeconds ≤ now) :
    submitEncryptedData env s sender now a b c d =
      .ok ({ s with
              lastSubmissionTime := fun q =>
                if q = sender then now else s.lastSubmissionTime q
              accSentimentScore := env.fheAdd s.accSentimentScore a
              accKeywordCount := env.fheAdd s.accKeywordCount b
              accPollOption1Count := env.fheAdd s.accPollOption1Count c
              accPollOption2Count := env.fheAdd s.accPollOption2Count d
              submissionsInCurrentBatch := s.submissionsInCurrentBatch + 1 },
           [Event.Submission s.currentBatchId sender]) := by
  simp [submitEncryptedData, hprov, hp, hopen, hinit, Nat.not_lt.mpr hcd]

/-- C6: a provider's successful submission at `t1` records `t1`; a
second submission by the same provider at `t2` (all other gates
passing) reverts `CooldownActive` exactly when
`t2 < t1 + cooldownSeconds`, and at `t2 = t1 + cooldownSeconds` it
succeeds and records that time as the provider's new last-submission
time. -/
theorem submission_cooldown_boundary (env : FheEnv) (s : ContractState)
    (p t1 a b c d : Nat) (hprov : s.providers p = true)
    (hp : s.paused = false) (hopen : s.batchOpen = true)
    (hinit : env.isInitialized = true)
    (hcd : s.lastSubmissionTime p + s.cooldownSeconds ≤ t1) :
    ∃ s1 evs,
      submitEncryptedData env s p t1 a b c d = .ok (s1, evs) ∧
      s1.lastSubmissionTime p = t1 ∧
      (∀ t2 a2 b2 c2 d2,
        submitEncryptedData env s1 p t2 a2 b2 c2 d2 =
            .error .CooldownActive ↔
          t2 < t1 + s.cooldownSeconds) ∧
      (∀ a2 b2 c2 d2, ∃ s2 evs2,
        submitEncryptedData env s1 p (t1 + s.cooldownSeconds) a2 b2 c2 d2 =
          .ok (s2, evs2) ∧
        s2.lastSubmissionTime p = t1 + s.cooldownSeconds) := by
  refine ⟨_, _, submit_ok env s p t1 a b c d hprov hp hopen hinit hcd,
    by simp, ?_, ?_⟩
  · intro t2 a2 b2 c2 d2
    constructor
    · intro he
      by_contra hge
      rw [submit_ok env _ p t2 a2 b2 c2 d2 (by simpa using hprov) (by simp [hp])
        (by simpa using hopen) hinit (by simpa using Nat.not_lt.mp hge)] at he
      exact absurd he (by simp)
    · intro hlt
      simp [submitEncryptedData, hprov, hp, hopen, hinit, hlt]
  · intro a2 b2 c2 d2
    refine ⟨_, _, submit_ok env _ p (t1 + s.cooldownSeconds) a2 b2 c2 d2
      (by simpa using hprov) (by simp [hp]) (by simpa using hopen) hinit
      (by simp), by simp⟩

/-- Witness for C6: provider 1 in the fresh open batch (cooldown 60,
last time 0) submits at 100; a resubmission at 159 is rejected, at
160 it is accepted. -/
theorem submission_cooldown_boundary_witness :
    ∃ s1 evs,
      submitEncryptedData envA stOpen 1 100 1 2 3 4 = .ok (s1, evs) ∧
      s1.lastSubmissionTime 1 = 100 ∧
      (∀ t2 a2 b2 c2 d2,
        submitEncryptedData envA s1 1 t2 a2 b2 c2 d2 =
            .error .CooldownActive ↔
          t2 < 100 + stOpen.cooldownSeconds) ∧
      (∀ a2 b2 c2 d2, ∃ s2 evs2,
        submitEncryptedData envA s1 1 (100 + stOpen.cooldownSeconds)
            a2 b2 c2 d2 = .ok (s2, evs2) ∧
        s2.lastSubmissionTime 1 = 100 + stOpen.cooldownSeconds) :=
  submission_cooldown_boundary envA stOpen 1 100 1 2 3 4 rfl rfl rfl rfl
    (by decide)

/-- Counterexample for C3 as stated: `myCallback` performs no
existence check and the contract declares no `UnknownRequest` error.
For a request id (5) for which no context was ever created, the
lookup yields the all-zero default struct, the replay guard passes,
and the call reverts with `StateMismatch` because the recomputed
keccak commitment differs from the default zero `stateHash`. -/
theorem unknown_request_reverts_state_mismatch_concrete :
    (constructState 1).1.decryptionContexts 5 = defaultContext ∧
    myCallback envA (constructState 1).1 9 5 [] [] =
      .error .StateMismatch :=
  ⟨rfl, rfl⟩

/-- C3 (amended): for every request id `r` whose context was never
created (the mapping still holds the all-zero default), and whenever
the recomputed commitment is nonzero (always the case for a real
keccak hash), `onDecryptionDelivered(r, cleartexts, proof)` reverts
with `StateMismatch` for all cleartexts and proofs — not with
`UnknownRequest`, which the contract neither declares nor checks. -/
theorem unknown_request_state_mismatch (env : FheEnv) (s : ContractState)
    (x requestId : Nat) (cleartexts proof : List Nat)
    (hun : s.decryptionContexts requestId = defaultContext)
    (hk : env.keccak (snapshotCts s) env.thisAddr ≠ 0) :
    myCallback env s x requestId cleartexts proof = .error .StateMismatch := by
  simp [myCallback, hun, defaultContext, hk]

/-- Witness for C3: request id 5 in the freshly constructed storage. -/
theorem unknown_request_state_mismatch_witness :
    myCallback envA (constructState 1).1 9 5 [] [] =
      .error .StateMismatch :=
  unknown_request_state_mismatch envA (constructState 1).1 9 5 [] [] rfl
    (by decide)

/-- C4: for an unprocessed context, delivery with a current
accumulator commitment differing from the stored one reverts
`StateMismatch`; with a matching commitment but a failing signature
check it reverts `InvalidProof`; a revert leaves storage — in
particular the `processed` flag — unchanged, so on the very same
storage a subsequent delivery with a valid proof succeeds and sets
`processed` to `true`. -/
theorem tamper_detection_retryability (env : FheEnv) (s : ContractState)
    (x requestId : Nat)
    (hproc : (s.decryptionContexts requestId).processed = false) :
    (∀ cleartexts proof,
      env.keccak (snapshotCts s) env.thisAddr ≠
          (s.decryptionContexts requestId).stateHash →
        myCallback env s x requestId cleartexts proof =
          .error .StateMismatch) ∧
    (∀ cleartexts proof,
      env.keccak (snapshotCts s) env.thisAddr =
          (s.decryptionContexts requestId).stateHash →
        env.checkSignatures requestId cleartexts proof = false →
        myCallback env s x requestId cleartexts proof =
          .error .InvalidProof) ∧
    (∀ cleartexts proof,
      env.keccak (snapshotCts s) env.thisAddr =
          (s.decryptionContexts requestId).stateHash →
        env.checkSignatures requestId cleartexts proof = true →
        ∃ s' evs,
          myCallback env s x requestId cleartexts proof = .ok (s', evs) ∧
          (s'.decryptionContexts requestId).processed = true) := by
  refine ⟨fun cleartexts proof hne => ?_,
    fun cleartexts proof heq hsig => ?_,
    fun cleartexts proof heq hsig => ?_⟩
  · simp [myCallback, hproc, hne]
  · simp [myCallback, hproc, heq, hsig]
  · refine ⟨{ s with
        decryptionContexts := fun q =>
          if q = requestId then
            { s.decryptionContexts requestId with processed := true }
          else s.decryptionContexts q },
      [Event.DecryptionCompleted requestId
        (s.decryptionContexts requestId).batchId
        (decodeWord cleartexts 0) (decodeWord cleartexts 32)
        (decodeWord cleartexts 64) (decodeWord cleartexts 96)], ?_, ?_⟩
    · simp [myCallback, hproc, heq, hsig]
    · simp

/-- Witness for C4: in `stC4`, delivery for id 6 (stored hash 0,
mismatching) reverts `StateMismatch`; for id 5 (matching hash) an
empty cleartext fails `envB`'s signature check and reverts
`InvalidProof`, while the nonempty cleartext `[1]` passes it,
succeeds, and marks the context processed. -/
theorem tamper_detection_retryability_witness :
    myCallback envB stC4 9 6 [1] [] = .error .StateMismatch ∧
    myCallback envB stC4 9 5 [] [] = .error .InvalidProof ∧
    (∃ s' evs, myCallback envB stC4 9 5 [1] [] = .ok (s', evs) ∧
      (s'.decryptionContexts 5).processed = true) :=
  ⟨(tamper_detection_retryability envB stC4 9 6 rfl).1 [1] [] (by decide),
   (tamper_detection_retryability envB stC4 9 5 rfl).2.1 [] [] rfl rfl,
   (tamper_detection_retryability envB stC4 9 5 rfl).2.2 [1] [] rfl rfl⟩

/-- No external call resets a `processed` flag: once the context of
request id `r` is processed, it stays processed after any call, as
long as the call is not a `requestBatchDecryption` for which the
oracle reissued the same id `r` (which would overwrite the context
with a fresh unprocessed one; the oracle issues fresh unique ids). -/
theorem processed_preserved_step (env : FheEnv) (s : ContractState)
    (op : Op) (r : Nat) (hop : reqIdOf op ≠ some r)
    (h : (s.decryptionContexts r).processed = true) :
    ((applyOp env s op).decryptionContexts r).processed = true := by
  cases op with
  | transferOwnership x n =>
      simp only [applyOp, runOp, transferOwnership]
      split_ifs <;> exact h
  | addProvider x p0 =>
      simp only [applyOp, runOp, addProvider]
      split_ifs <;> exact h
  | removeProvider x p0 =>
      simp only [applyOp, runOp, removeProvider]
      split_ifs <;> exact h
  | setPaused x b =>
      simp only [applyOp, runOp, setPaused]
      split_ifs <;> exact h
  | setCooldownSeconds x c =>
      simp only [applyOp, runOp, setCooldownSeconds]
      split_ifs <;> exact h
  | openBatch x =>
      simp only [applyOp, runOp, openBatch]
      split_ifs <;> exact h
  | closeBatch x =>
      simp only [applyOp, runOp, closeBatch]
      split_ifs <;> exact h
  | submitEncryptedData x now a b c d =>
      simp only [applyOp, runOp, submitEncryptedData]
      split_ifs <;> exact h
  | requestBatchDecryption x now q =>
      have hne : r ≠ q := fun hqr => hop (by simp [reqIdOf, hqr])
      simp only [applyOp, runOp, requestBatchDecryption]
      split_ifs <;> simp_all
  | myCallback x q cl pf =>
      simp only [applyOp, runOp, myCallback]
      by_cases hrq : r = q
      · subst hrq
        split_ifs <;> simp_all
      · split_ifs <;> simp_all

/-- `processed_preserved_step` extended to any sequence of external
calls, none of which reuses the request id `r`. -/
theorem processed_preserved (env : FheEnv) (ops : List Op)
    (s : ContractState) (r : Nat)
    (hops : ∀ op ∈ ops, reqIdOf op ≠ some r)
    (h : (s.decryptionContexts r).processed = true) :
    ((applyOps env s ops).decryptionContexts r).processed = true := by
  induction ops generalizing s with
  | nil => exact h
  | cons op ops ih =>
      exact ih (applyOp env s op)
        (fun o ho => hops o (List.mem_cons_of_mem _ ho))
        (processed_preserved_step env s op r
          (hops op (List.mem_cons_self _ _)) h)

/-- C1: for a stored context that is unprocessed and whose stored
commitment matches the recomputed one, delivery with a valid proof
succeeds, marks the context processed, and emits
`DecryptionCompleted`; and after any sequence of further external
calls (none reissuing the same oracle request id), every later
delivery for the same `requestId` — any cleartexts, any proof, any
caller — reverts with `ReplayDetected`, leaving storage unchanged. -/
theorem exactly_once_finalization (env : FheEnv) (s : ContractState)
    (x requestId : Nat) (cleartexts proof : List Nat)
    (hproc : (s.decryptionContexts requestId).processed = false)
    (hhash : env.keccak (snapshotCts s) env.thisAddr =
      (s.decryptionContexts requestId).stateHash)
    (hsig : env.checkSignatures requestId cleartexts proof = true) :
    ∃ s' : ContractState,
      myCallback env s x requestId cleartexts proof =
        .ok (s', [Event.DecryptionCompleted requestId
          (s.decryptionContexts requestId).batchId
          (decodeWord cleartexts 0) (decodeWord cleartexts 32)
          (decodeWord cleartexts 64) (decodeWord cleartexts 96)]) ∧
      (s'.decryptionContexts requestId).processed = true ∧
      (∀ ops : List Op, (∀ op ∈ ops, reqIdOf op ≠ some requestId) →
        ∀ x2 cleartexts2 proof2,
          myCallback env (applyOps env s' ops) x2 requestId cleartexts2
              proof2 = .error .ReplayDetected) := by
  refine ⟨{ s with decryptionContexts := fun q =>
      if q = requestId then
        { s.decryptionContexts requestId with processed := true }
      else s.decryptionContexts q }, ?_, by simp, ?_⟩
  · simp [myCallback, hproc, hhash, hsig]
  · intro ops hops x2 cleartexts2 proof2
    have hpres := processed_preserved env ops
      { s with decryptionContexts := fun q =>
          if q = requestId then
            { s.decryptionContexts requestId with processed := true }
          else s.decryptionContexts q } requestId hops (by simp)
    simp [myCallback, hpres]

/-- Witness for C1: delivery of request id 5 in `stC4` with the
valid cleartext `[1]` succeeds once; thereafter — here after an
empty sequence of further calls — any redelivery replays. -/
theorem exactly_once_finalization_witness :
    ∃ s' : ContractState,
      myCallback envB stC4 9 5 [1] [] =
        .ok (s', [Event.DecryptionCompleted 5
          (stC4.decryptionContexts 5).batchId
          (decodeWord [1] 0) (decodeWord [1] 32)
          (decodeWord [1] 64) (decodeWord [1] 96)]) ∧
      (s'.decryptionContexts 5).processed = true ∧
      (∀ ops : List Op, (∀ op ∈ ops, reqIdOf op ≠ some 5) →
        ∀ x2 cleartexts2 proof2,
          myCallback envB (applyOps envB s' ops) x2 5 cleartexts2 proof2 =
            .error .ReplayDetected) :=
  exactly_once_finalization envB stC4 9 5 [1] [] rfl rfl rfl

/-- C2 scenario state 0: freshly constructed storage, owner 1. -/
def c2s0 : ContractState := (constructState 1).1

/-- C2 scenario state 1: after the owner opens batch 1. -/
def c2s1 : ContractState := applyOp envB c2s0 (Op.openBatch 1)

/-- C2 scenario state 2: after provider 1 submits at time 100. -/
def c2s2 : ContractState :=
  applyOp envB c2s1 (Op.submitEncryptedData 1 100 1 2 3 4)

/-- C2 scenario state 3: after the owner closes batch 1. -/
def c2s3 : ContractState := applyOp envB c2s2 (Op.closeBatch 1)

/-- C2 scenario state 4: after the owner requests decryption of the
closed batch 1 at time 200, the oracle issuing request id 42. -/
def c2s4 : ContractState :=
  applyOp envB c2s3 (Op.requestBatchDecryption 1 200 42)

/-- C2 scenario state 5: after the owner opens batch 2 while request
42 for batch 1 is still outstanding — this resets the four global
accumulators. -/
def c2s5 : ContractState := applyOp envB c2s4 (Op.openBatch 1)

/-- C2 failing scenario: the owner opens batch 1, a provider submits,
the batch is closed, decryption is requested (oracle id 42, context
pending with `batchId = 1`), and then batch 2 is opened — which resets
the four global accumulators. A valid oracle delivery for request 42
(`checkSignatures` passes on its cleartexts) now reverts with
`StateMismatch`: `myCallback` recomputes the commitment from the
CURRENT global accumulators, not from handles recorded at the
context's `batchId`, so the claim that the delivery still succeeds
and finalizes independently fails on this code. -/
theorem batchN_delivery_fails_after_reopen :
    runOp envB c2s0 (Op.openBatch 1) = .ok (c2s1, [Event.BatchOpened 1]) ∧
    runOp envB c2s1 (Op.submitEncryptedData 1 100 1 2 3 4) =
      .ok (c2s2, [Event.Submission 1 1]) ∧
    runOp envB c2s2 (Op.closeBatch 1) = .ok (c2s3, [Event.BatchClosed 1]) ∧
    runOp envB c2s3 (Op.requestBatchDecryption 1 200 42) =
      .ok (c2s4, [Event.DecryptionRequested 42 1]) ∧
    (c2s4.decryptionContexts 42).processed = false ∧
    (c2s4.decryptionContexts 42).batchId = 1 ∧
    runOp envB c2s4 (Op.openBatch 1) = .ok (c2s5, [Event.BatchOpened 2]) ∧
    envB.checkSignatures 42 [1] [] = true ∧
    myCallback envB c2s5 9 42 [1] [] = .error .StateMismatch :=
  ⟨rfl, rfl, rfl, rfl, rfl, rfl, rfl, rfl, rfl⟩

end DaoDebateGuard
